import Mathlib

/- Verification development for the galmag halo magnetic-field core:
   the free-decay-mode library (core/halo_free_decay_modes.py), the dynamo
   perturbation operator and the Galerkin coefficient solver
   (gmf_tool/B_generators/B_generator_halo.py).
   Fields evaluated on a coordinate grid are modelled as real-valued
   functions on an index type: one value per grid point, exactly the
   elementwise semantics of the numpy arrays in the source. -/

open Real

/-- Modelled from the spec: scipy.special.jv, the Bessel function of the
first kind, restricted to the half-integer orders 3/2, 5/2, 7/2, 9/2 that
the mode library uses (spec section 4.1: half-integer-order spherical
Bessel functions). For these orders jv has the standard closed forms in
sin, cos and powers used here; other orders never occur in the source. -/
noncomputable def jv (nu : ℚ) (x : ℝ) : ℝ :=
  if nu = 3/2 then sqrt (2/(π*x)) * (sin x / x - cos x)
  else if nu = 5/2 then sqrt (2/(π*x)) * ((3/x^2 - 1) * sin x - 3 * cos x / x)
  else if nu = 7/2 then sqrt (2/(π*x)) * ((15/x^3 - 6/x) * sin x - (15/x^2 - 1) * cos x)
  else if nu = 9/2 then sqrt (2/(π*x)) * ((105/x^4 - 45/x^2 + 1) * sin x - (105/x^3 - 10/x) * cos x)
  else 0

/-- First antisymmetric free decay mode, purely poloidal
(halo_free_decay_modes.py, get_B_a_1, lines 11-41). The boolean-mask
assignments Q[r<=1], Q[r>1] of the source become the two branches of an
if on each grid point. -/
noncomputable def get_B_a_1 {ι : Type} (r theta _phi : ι → ℝ)
    (C : ℝ := 0.346) (k : ℝ := π) : (ι → ℝ) × (ι → ℝ) × (ι → ℝ) :=
  let Q : ι → ℝ := fun i =>
    if r i ≤ 1 then (r i) ^ (-(0.5:ℝ)) * jv (3/2) (k * r i)
    else (r i) ^ (-(2.0:ℝ)) * jv (3/2) k
  let Br : ι → ℝ := fun i => C * (2.0 / r i) * Q i * cos (theta i)
  let X : ι → ℝ := fun i =>
    if r i ≤ 1 then
      let y := k * r i
      sqrt (2.0/π) * (y^2 * sin y - sin y + y * cos y) / (k ^ (-(0.5:ℝ)) * y^2)
    else -1 * (r i) ^ (-(2.0:ℝ)) * jv (3/2) k
  let Btheta : ι → ℝ := fun i => C * (-sin (theta i) / r i) * X i
  let Bphi : ι → ℝ := fun _ => 0
  (Br, Btheta, Bphi)

/-- Second antisymmetric free decay mode, purely poloidal
(halo_free_decay_modes.py, get_B_a_2, lines 43-85). -/
noncomputable def get_B_a_2 {ι : Type} (r theta _phi : ι → ℝ)
    (C : ℝ := 0.250) (k : ℝ := 5.763) : (ι → ℝ) × (ι → ℝ) × (ι → ℝ) :=
  let Q : ι → ℝ := fun i =>
    if r i ≤ 1 then (r i) ^ (-(0.5:ℝ)) * jv (7/2) (k * r i)
    else (r i) ^ (-(4.0:ℝ)) * jv (7/2) k
  let Br : ι → ℝ := fun i =>
    C * (2.0 / r i) * Q i * cos (theta i) * (5.0 * cos (2 * theta i) - 1)
  let X : ι → ℝ := fun i =>
    if r i ≤ 1 then
      let y := k * r i
      let siny := sin y
      let cosy := cos y
      let A := 15*siny/y^3 - 15*cosy/y^2 - 6*siny/y + cosy
      let B := -45*siny/y^3/(r i) + 45*cosy/y^2/(r i) + 21*siny/y/(r i)
                 - k*siny - 6*siny/(r i)
      A/sqrt (2*π*(r i)*y) - k*sqrt (r i)*A/sqrt (2*π)/y^((3:ℝ)/2)
        + sqrt (2/π)*B/sqrt k
    else -3 * jv (7/2) k * (r i) ^ (-(4:ℝ))
  let Btheta : ι → ℝ := fun i =>
    C * (-sin (theta i) / r i) * X i * (5 * cos (theta i)^2 - 1)
  let Bphi : ι → ℝ := fun _ => 0
  (Br, Btheta, Bphi)

/-- Third antisymmetric free decay mode, purely toroidal
(halo_free_decay_modes.py, get_B_a_3, lines 88-111). -/
noncomputable def get_B_a_3 {ι : Type} (r theta _phi : ι → ℝ)
    (C : ℝ := 3.445) (k : ℝ := 5.763) : (ι → ℝ) × (ι → ℝ) × (ι → ℝ) :=
  let Br : ι → ℝ := fun _ => 0
  let Btheta : ι → ℝ := fun _ => 0
  let Q : ι → ℝ := fun i =>
    if r i ≤ 1 then (r i) ^ (-(0.5:ℝ)) * jv (5/2) (k * r i)
    else (r i) ^ (-(3.0:ℝ)) * jv (5/2) k
  let Bphi : ι → ℝ := fun i => C * Q i * sin (theta i) * cos (theta i)
  (Br, Btheta, Bphi)

/-- Fourth antisymmetric free decay mode
(halo_free_decay_modes.py, get_B_a_4, lines 114-125): the source comment
notes it has the same form as the first antisymmetric mode and it simply
delegates to get_B_a_1 with its own constants. -/
noncomputable def get_B_a_4 {ι : Type} (r theta phi : ι → ℝ)
    (C : ℝ := 0.244) (k : ℝ := 2*π) : (ι → ℝ) × (ι → ℝ) × (ι → ℝ) :=
  get_B_a_1 r theta phi C k

/-- First symmetric free decay mode, purely poloidal
(halo_free_decay_modes.py, get_B_s_1, lines 128-163). -/
noncomputable def get_B_s_1 {ι : Type} (r theta _phi : ι → ℝ)
    (C : ℝ := 0.662) (k : ℝ := 4.493) : (ι → ℝ) × (ι → ℝ) × (ι → ℝ) :=
  let Q : ι → ℝ := fun i =>
    if r i ≤ 1 then (r i) ^ (-(0.5:ℝ)) * jv (5/2) (k * r i)
    else (r i) ^ (-(3.0:ℝ)) * jv (5/2) k
  let Br : ι → ℝ := fun i => C * Q i * (3.0 * cos (theta i)^2 - 1) / r i
  let X : ι → ℝ := fun i =>
    if r i ≤ 1 then
      let y := k * r i
      let siny := sin y
      let cosy := cos y
      (3*siny/y^2 - siny - 3*cosy/y)/sqrt (2*π*y*(r i))
        - k*sqrt (r i)*(3*siny/y^2 - siny - 3*cosy/y)/sqrt (2*π)*y^(-((3:ℝ)/2))
        + sqrt (2/π*(r i))*(-6*siny*k/y^3 + 6*cosy*k/y^2 + 3*siny*k/y - k*cosy)/sqrt y
    else -2.0 * (r i) ^ (-(3.0:ℝ)) * jv (5/2) k
  let Btheta : ι → ℝ := fun i => C * (-sin (theta i) * cos (theta i) / r i) * X i
  let Bphi : ι → ℝ := fun _ => 0
  (Br, Btheta, Bphi)

/-- Second symmetric free decay mode, purely toroidal
(halo_free_decay_modes.py, get_B_s_2, lines 166-189). -/
noncomputable def get_B_s_2 {ι : Type} (r theta _phi : ι → ℝ)
    (C : ℝ := 1.330) (k : ℝ := 4.493) : (ι → ℝ) × (ι → ℝ) × (ι → ℝ) :=
  let Br : ι → ℝ := fun _ => 0
  let Btheta : ι → ℝ := fun _ => 0
  let Q : ι → ℝ := fun i =>
    if r i ≤ 1 then (r i) ^ (-(0.5:ℝ)) * jv (3/2) (k * r i)
    else (r i) ^ (-(2.0:ℝ)) * jv (3/2) k
  let Bphi : ι → ℝ := fun i => C * Q i * sin (theta i)
  (Br, Btheta, Bphi)

/-- Third symmetric free decay mode, purely poloidal
(halo_free_decay_modes.py, get_B_s_3, lines 193-234). -/
noncomputable def get_B_s_3 {ι : Type} (r theta _phi : ι → ℝ)
    (C : ℝ := 0.339) (k : ℝ := 6.988) : (ι → ℝ) × (ι → ℝ) × (ι → ℝ) :=
  let S : ι → ℝ := fun i => 35 * cos (theta i)^4 - 30 * cos (theta i)^2 + 3.0
  let Q : ι → ℝ := fun i =>
    if r i ≤ 1 then (r i) ^ (-(0.5:ℝ)) * jv (9/2) (k * r i)
    else (r i) ^ (-(5.0:ℝ)) * jv (9/2) k
  let Br : ι → ℝ := fun i => C * Q i * S i / r i
  let X : ι → ℝ := fun i =>
    if r i ≤ 1 then
      let y := k * r i
      let siny := sin y
      let cosy := cos y
      let A := 105*siny/y^4 - 105*cosy/y^3 - 45*siny/y^2 + siny + 10*cosy/y
      A/sqrt (2*π*y*(r i)) - k*sqrt (r i)*A/sqrt (2*π*y^((1.5:ℝ)))
        + sqrt (2/π*(r i))*(-420*siny*k/y^5 + 420*cosy*k/y^4 + 195*siny*k/y^3
                             - 55*cosy*k/y^2 - 10*siny*k/y + k*cosy)/sqrt y
    else -4 * (r i) ^ (-(5.0:ℝ)) * jv (9/2) k
  let dSdth : ι → ℝ := fun i =>
    sin (theta i) * cos (theta i) * (60 - 140 * cos (theta i)^2)
  let Btheta : ι → ℝ := fun i => C * X i * dSdth i / r i
  let Bphi : ι → ℝ := fun _ => 0
  (Br, Btheta, Bphi)

/-- Fourth symmetric free decay mode, purely toroidal
(halo_free_decay_modes.py, get_B_s_4, lines 237-262; the angular factor S
computed there is unused by the source as well). -/
noncomputable def get_B_s_4 {ι : Type} (r theta _phi : ι → ℝ)
    (C : ℝ := 0.540) (k : ℝ := 6.988) : (ι → ℝ) × (ι → ℝ) × (ι → ℝ) :=
  let Br : ι → ℝ := fun _ => 0
  let Btheta : ι → ℝ := fun _ => 0
  let Q : ι → ℝ := fun i =>
    if r i ≤ 1 then (r i) ^ (-(0.5:ℝ)) * jv (7/2) (k * r i)
    else (r i) ^ (-(4.0:ℝ)) * jv (7/2) k
  let Bphi : ι → ℝ := fun i => -C * Q i * sin (theta i)
  (Br, Btheta, Bphi)

/-- Interior branch (the r <= 1 mask) of the polar component of the second
antisymmetric mode, read off from get_B_a_2 (halo_free_decay_modes.py,
lines 66-79): the value Btheta takes at a grid point with radius rv and
polar angle tv when the interior formula for X is selected. -/
noncomputable def B_a_2_theta_int (rv tv C k : ℝ) : ℝ :=
  let y := k * rv
  let siny := sin y
  let cosy := cos y
  let A := 15*siny/y^3 - 15*cosy/y^2 - 6*siny/y + cosy
  let B := -45*siny/y^3/rv + 45*cosy/y^2/rv + 21*siny/y/rv - k*siny - 6*siny/rv
  let X := A/sqrt (2*π*rv*y) - k*sqrt rv*A/sqrt (2*π)/y^((3:ℝ)/2)
             + sqrt (2/π)*B/sqrt k
  C * (-sin tv / rv) * X * (5 * cos tv^2 - 1)

/-- Exterior branch (the r > 1 mask) of the polar component of the second
antisymmetric mode, read off from get_B_a_2 (halo_free_decay_modes.py,
line 77 and 79). -/
noncomputable def B_a_2_theta_ext (rv tv C k : ℝ) : ℝ :=
  C * (-sin tv / rv) * (-3 * jv (7/2) k * rv ^ (-(4:ℝ))) * (5 * cos tv^2 - 1)

/-- The polar component produced by get_B_a_2 is, pointwise, the interior
branch where r <= 1 and the exterior branch where r > 1. -/
theorem get_B_a_2_theta_branches {ι : Type} (r theta phi : ι → ℝ)
    (C k : ℝ) (i : ι) :
    (get_B_a_2 r theta phi C k).2.1 i =
      if r i ≤ 1 then B_a_2_theta_int (r i) (theta i) C k
      else B_a_2_theta_ext (r i) (theta i) C k := by
  by_cases h : r i ≤ 1 <;>
    simp only [get_B_a_2, B_a_2_theta_int, B_a_2_theta_ext, if_pos, if_neg, h,
      if_true, if_false]

/-- C3: for every coordinate grid with all radial entries positive, the
toroidal modes (a_3, s_2, s_4) have identically zero radial and polar
component arrays, and the poloidal modes (a_1, a_2, a_4, s_1, s_3) have
identically zero azimuthal component arrays, for any constants C and k. -/
theorem C3_toroidal_poloidal_zero_components {ι : Type} (r theta phi : ι → ℝ)
    (_h : ∀ i, 0 < r i) (C k : ℝ) :
    (get_B_a_3 r theta phi C k).1 = (fun _ => 0) ∧
    (get_B_a_3 r theta phi C k).2.1 = (fun _ => 0) ∧
    (get_B_s_2 r theta phi C k).1 = (fun _ => 0) ∧
    (get_B_s_2 r theta phi C k).2.1 = (fun _ => 0) ∧
    (get_B_s_4 r theta phi C k).1 = (fun _ => 0) ∧
    (get_B_s_4 r theta phi C k).2.1 = (fun _ => 0) ∧
    (get_B_a_1 r theta phi C k).2.2 = (fun _ => 0) ∧
    (get_B_a_2 r theta phi C k).2.2 = (fun _ => 0) ∧
    (get_B_a_4 r theta phi C k).2.2 = (fun _ => 0) ∧
    (get_B_s_1 r theta phi C k).2.2 = (fun _ => 0) ∧
    (get_B_s_3 r theta phi C k).2.2 = (fun _ => 0) :=
  ⟨rfl, rfl, rfl, rfl, rfl, rfl, rfl, rfl, rfl, rfl, rfl⟩

/-- Witness for C3 at a concrete one-point grid with r = 1/2. -/
theorem C3_witness :
    (get_B_a_3 (fun _ : Unit => (1:ℝ)/2) (fun _ => 1) (fun _ => 1) 1 1).1 =
      (fun _ => 0) ∧
    (get_B_a_3 (fun _ : Unit => (1:ℝ)/2) (fun _ => 1) (fun _ => 1) 1 1).2.1 =
      (fun _ => 0) := by
  have h := C3_toroidal_poloidal_zero_components
    (fun _ : Unit => (1:ℝ)/2) (fun _ => 1) (fun _ => 1)
    (fun _ => by norm_num) 1 1
  exact ⟨h.1, h.2.1⟩

/-- C10: for every grid with positive radii, get_B_a_4 with its default
constants returns exactly the same three component arrays as get_B_a_1
called on the same grid with C = 0.244 and k = 2*pi: the fourth
antisymmetric mode is the first antisymmetric mode reparameterized. -/
theorem C10_a4_is_a1_reparameterized {ι : Type} (r theta phi : ι → ℝ)
    (_h : ∀ i, 0 < r i) :
    get_B_a_4 r theta phi = get_B_a_1 r theta phi 0.244 (2*π) :=
  rfl

/-- Witness for C10 at a concrete one-point grid with r = 1/2. -/
theorem C10_witness :
    get_B_a_4 (fun _ : Unit => (1:ℝ)/2) (fun _ => 1) (fun _ => 1) =
      get_B_a_1 (fun _ : Unit => (1:ℝ)/2) (fun _ => 1) (fun _ => 1)
        0.244 (2*π) :=
  C10_a4_is_a1_reparameterized (fun _ : Unit => (1:ℝ)/2) (fun _ => 1)
    (fun _ => 1) (fun _ => by norm_num)

/- The Galerkin side of the code works on NxNxNp numpy arrays with axes
   (r, theta, phi); these are modelled as functions from a triple of
   indices to the reals, with the axis resolutions carried separately
   (numpy carries them in the array shape). -/

abbrev Arr : Type := ℕ × ℕ × ℕ → ℝ

/-- Modelled from the spec: a one-dimensional numerical derivative of the
samples f with respect to the coordinate samples x along one grid axis of
n points (central difference in the interior, one-sided at the ends), the
standard discrete derivative used by the curl helper that the Galerkin
routine needs but that is absent from src. -/
noncomputable def fdAxis (n : ℕ) (x f : ℕ → ℝ) (i : ℕ) : ℝ :=
  if n ≤ 1 then 0
  else if i = 0 then (f 1 - f 0) / (x 1 - x 0)
  else if i = n - 1 then (f i - f (i - 1)) / (x i - x (i - 1))
  else (f (i + 1) - f (i - 1)) / (x (i + 1) - x (i - 1))

/-- Modelled from the spec: curl_spherical, referenced by
perturbation_operator (B_generator_halo.py lines 96 and 100) but not
present in src. Spec section 4.2: the standard curl in spherical
coordinates with the metric factors 1/r and 1/(r sin theta), with the
derivatives along the three grid axes taken as discrete derivatives of
the sampled fields. -/
noncomputable def curl_spherical (nr nt np : ℕ) (r theta _phi Fr Ft Fp : Arr) :
    Arr × Arr × Arr :=
  let dR : Arr → Arr := fun G p =>
    fdAxis nr (fun a => r (a, p.2.1, p.2.2)) (fun a => G (a, p.2.1, p.2.2)) p.1
  let dT : Arr → Arr := fun G p =>
    fdAxis nt (fun b => theta (p.1, b, p.2.2)) (fun b => G (p.1, b, p.2.2)) p.2.1
  let dP : Arr → Arr := fun G p =>
    fdAxis np (fun l => _phi (p.1, p.2.1, l)) (fun l => G (p.1, p.2.1, l)) p.2.2
  (fun p => 1 / (r p * sin (theta p)) *
      (dT (fun q => sin (theta q) * Fp q) p - dP Ft p),
   fun p => 1 / r p * (1 / sin (theta p) * dP Fr p - dR (fun q => r q * Fp q) p),
   fun p => 1 / r p * (dR (fun q => r q * Ft q) p - dT Fr p))

/-- Modelled from the spec: the cross-product helper referenced by
perturbation_operator (B_generator_halo.py line 99) but not present in
src: the componentwise cross product of two vector fields in the
orthonormal spherical basis. -/
def cross (Vr Vt Vp Br Bt Bp : Arr) : Arr × Arr × Arr :=
  (fun p => Vt p * Bp p - Vp p * Bt p,
   fun p => Vp p * Br p - Vr p * Bp p,
   fun p => Vr p * Bt p - Vt p * Br p)

/-- Component i of a triple of arrays, mirroring the list indexing
curl_aB[i] of the source, with index 2 the azimuthal entry. -/
def comp3 (t : Arr × Arr × Arr) (i : ℕ) : Arr :=
  if i = 0 then t.1 else if i = 1 then t.2.1 else t.2.2

/-- The dynamo perturbation operator (B_generator_halo.py, lines 71-115).
It computes curl(alpha B) (the source writes Br*a for its alpha argument,
named alpha in the signature and docstring), then V x B and its curl, and
only then combines them component by component inside the loop over
i = 0, 1, 2 according to the dynamo-type tag; a tag other than
alpha-omega and alpha2-omega raises an AssertionError at the first loop
iteration, so nothing is returned. -/
noncomputable def perturbation_operator (nr nt np : ℕ)
    (r theta phi Br Bt Bp Vr Vt Vp alpha : Arr) (Ra Ro : ℝ)
    (dynamo_type : String := "alpha-omega") :
    Except String (Arr × Arr × Arr) :=
  let curl_aB := curl_spherical nr nt np r theta phi
    (fun q => Br q * alpha q) (fun q => Bt q * alpha q) (fun q => Bp q * alpha q)
  let VcrossB := cross Vr Vt Vp Br Bt Bp
  let curl_VcrossB := curl_spherical nr nt np r theta phi
    VcrossB.1 VcrossB.2.1 VcrossB.2.2
  if dynamo_type = "alpha-omega" then
    Except.ok
      (fun p => Ra * (comp3 curl_aB 0 p - comp3 curl_aB 2 p) + Ro * comp3 curl_VcrossB 0 p,
       fun p => Ra * (comp3 curl_aB 1 p - comp3 curl_aB 2 p) + Ro * comp3 curl_VcrossB 1 p,
       fun p => Ra * (comp3 curl_aB 2 p - comp3 curl_aB 2 p) + Ro * comp3 curl_VcrossB 2 p)
  else if dynamo_type = "alpha2-omega" then
    Except.ok
      (fun p => Ra * comp3 curl_aB 0 p + Ro * comp3 curl_VcrossB 0 p,
       fun p => Ra * comp3 curl_aB 1 p + Ro * comp3 curl_VcrossB 1 p,
       fun p => Ra * comp3 curl_aB 2 p + Ro * comp3 curl_VcrossB 2 p)
  else Except.error ("Invalid option: dynamo_type=" ++ dynamo_type)

/-- One step in the evaluation of perturbation_operator, used to record
the order in which the source performs its work. -/
inductive PerturbationEvent
  | curlAlphaB
  | crossVB
  | curlVcrossB
  | appendComponent (i : ℕ)
  | raiseInvalidDynamoType
  deriving DecidableEq

/-- The order of operations of perturbation_operator as written in the
source (B_generator_halo.py lines 95-115): curl(alpha B) is computed
first (line 96), then the cross product (line 99) and its curl
(line 100), and only then the loop over components runs; with a valid tag
each component is appended, with any other tag the AssertionError fires
at the first iteration and the operation aborts. -/
def perturbation_operator_events (dynamo_type : String) : List PerturbationEvent :=
  [PerturbationEvent.curlAlphaB, PerturbationEvent.crossVB,
   PerturbationEvent.curlVcrossB] ++
    (if dynamo_type = "alpha-omega" ∨ dynamo_type = "alpha2-omega" then
      [PerturbationEvent.appendComponent 0, PerturbationEvent.appendComponent 1,
       PerturbationEvent.appendComponent 2]
    else [PerturbationEvent.raiseInvalidDynamoType])

/-- Modelled from the spec: scipy.integrate.simps with uniform spacing dx
(spec section 4.3: a composite Simpson quadrature along the grid axis).
Odd sample counts use the pure composite Simpson rule; an even count ends
with a trapezoid step for the final interval; zero or one sample
integrates to zero. -/
noncomputable def simpsList (dx : ℝ) : List ℝ → ℝ
  | a :: b :: c :: rest => dx/3*(a + 4*b + c) + simpsList dx (c :: rest)
  | [a, b] => dx*(a+b)/2
  | _ => 0
termination_by l => l.length

/-- A Simpson quadrature of an all-zero sample list is zero. -/
theorem simpsList_replicate_zero (dx : ℝ) : ∀ n, simpsList dx (List.replicate n (0:ℝ)) = 0
  | 0 => by simp [simpsList]
  | 1 => by simp [List.replicate, simpsList]
  | 2 => by simp [List.replicate, simpsList]
  | (n+3) => by
      have ih := simpsList_replicate_zero dx (n+1)
      have h3 : List.replicate (n+3) (0:ℝ) = 0 :: 0 :: 0 :: List.replicate n 0 := rfl
      have h1 : List.replicate (n+1) (0:ℝ) = 0 :: List.replicate n 0 := rfl
      rw [h3, simpsList, ← h1, ih]
      ring

/-- Modelled from the spec: halo_free_decay_modes.get_mode, called by the
Galerkin routine (B_generator_halo.py line 156) but absent from the
module in src: it selects the imode-th entry (1-based) of the fixed
antisymmetric or symmetric mode list found at the end of
halo_free_decay_modes.py, evaluated with the default constants; an index
outside the list is a configuration error, modelled as the zero field. -/
noncomputable def get_mode {ι : Type} (r theta phi : ι → ℝ) (imode : ℕ)
    (symmetric : Bool) : (ι → ℝ) × (ι → ℝ) × (ι → ℝ) :=
  if symmetric then
    match imode with
    | 1 => get_B_s_1 r theta phi
    | 2 => get_B_s_2 r theta phi
    | 3 => get_B_s_3 r theta phi
    | 4 => get_B_s_4 r theta phi
    | _ => (fun _ => 0, fun _ => 0, fun _ => 0)
  else
    match imode with
    | 1 => get_B_a_1 r theta phi
    | 2 => get_B_a_2 r theta phi
    | 3 => get_B_a_3 r theta phi
    | 4 => get_B_a_4 r theta phi
    | _ => (fun _ => 0, fun _ => 0, fun _ => 0)

/-- Modelled from the spec: the gamma referenced at line 227 of
B_generator_halo.py is undefined in the source; per spec section 4.3
step 4 it is the table of the analytic decay eigenvalues of the
free-decay modes, gamma = -k^2 for the wavenumber of each mode in the
fixed list (the docstrings of halo_free_decay_modes.py give the
degenerate-pair eigenvalue -(5.763)^2 and the k values). -/
noncomputable def gamma_mode (symmetric : Bool) (i : ℕ) : ℝ :=
  if symmetric then
    match i with
    | 0 => -(4.493:ℝ)^2
    | 1 => -(4.493:ℝ)^2
    | 2 => -(6.988:ℝ)^2
    | 3 => -(6.988:ℝ)^2
    | _ => 0
  else
    match i with
    | 0 => -π^2
    | 1 => -(5.763:ℝ)^2
    | 2 => -(5.763:ℝ)^2
    | 3 => -(2*π)^2
    | _ => 0

/-- The value of a successful perturbation-operator application; a failed
one contributes the zero field (it never reaches the integrand in the
source, which propagates the exception instead). -/
def getOk (e : Except String (Arr × Arr × Arr)) : Arr × Arr × Arr :=
  match e with
  | Except.ok v => v
  | Except.error _ => (fun _ => 0, fun _ => 0, fun _ => 0)

/-- The spherical Galerkin integration grid: axis resolutions nr, nt, np,
coordinate arrays, and the axis spacings dr, dtheta, dphi that the source
references without defining (spec section 4.3 binds them to the Simpson
quadrature spacings of the grid axes, with dphi = 0 for a zero-width phi
axis). -/
structure SphGrid where
  nr : ℕ
  nt : ℕ
  np : ℕ
  r : Arr
  theta : Arr
  phi : Arr
  dr : ℝ
  dtheta : ℝ
  dphi : ℝ

/-- The coupling integrand of the Galerkin routine (B_generator_halo.py
lines 202-212): the dot product of mode i with the perturbation operator
applied to mode j, weighted by the spherical volume element r^2 sin
theta. The undefined names nmodes, Bmode and WBmode of the source are
bound per spec section 9 to n_free_decay_modes, Bmodes[i] and
WBmodes[j]. -/
noncomputable def couplingIntegrand (g : SphGrid) (symmetric : Bool)
    (dynamo_type : String)
    (function_V : Arr → Arr → Arr → Arr × Arr × Arr)
    (function_alpha : Arr → Arr → Arr → Arr) (Ra Ro : ℝ) (i j : ℕ) : Arr :=
  let Bi := get_mode g.r g.theta g.phi (i+1) symmetric
  let Bj := get_mode g.r g.theta g.phi (j+1) symmetric
  let alpha := function_alpha g.r g.theta g.phi
  let Vs := function_V g.r g.theta g.phi
  let WBj := getOk (perturbation_operator g.nr g.nt g.np g.r g.theta g.phi
    Bj.1 Bj.2.1 Bj.2.2 Vs.1 Vs.2.1 Vs.2.2 alpha Ra Ro dynamo_type)
  fun p => (Bi.1 p * WBj.1 p + Bi.2.1 p * WBj.2.1 p + Bi.2.2 p * WBj.2.2 p)
    * (g.r p)^2 * sin (g.theta p)

/-- One off-diagonal coupling-matrix entry (B_generator_halo.py lines
212-223): the integrand is integrated over phi (by Simpson quadrature
when the phi spacing is nonzero, otherwise the phi = 0 slice is taken and
multiplied by 2 pi under the axisymmetry assumption), then over theta,
then over r, each along the corresponding grid axis. -/
noncomputable def couplingIntegral (g : SphGrid) (symmetric : Bool)
    (dynamo_type : String)
    (function_V : Arr → Arr → Arr → Arr × Arr × Arr)
    (function_alpha : Arr → Arr → Arr → Arr) (Ra Ro : ℝ) (i j : ℕ) : ℝ :=
  let integrand := couplingIntegrand g symmetric dynamo_type function_V
    function_alpha Ra Ro i j
  let afterPhi : ℕ → ℕ → ℝ := fun a b =>
    if g.dphi ≠ 0 then
      simpsList g.dphi (List.ofFn fun l : Fin g.np => integrand (a, b, l.1))
    else integrand (a, b, 0) * 2.0 * π
  let afterTheta : ℕ → ℝ := fun a =>
    simpsList g.dtheta (List.ofFn fun b : Fin g.nt => afterPhi a b.1)
  simpsList g.dr (List.ofFn fun a : Fin g.nr => afterTheta a.1)

/-- The coupling matrix built by Galerkin_expansion_coefficients
(B_generator_halo.py lines 117-234): the double loop skips i = j and
accumulates the triple quadrature into Wij[i, j] starting from a zero
matrix, then the diagonal is overwritten with gamma[i]; entries outside
the n x n range stay at zero. The final eigendecomposition of the matrix
is an external library call (numpy.linalg.eig) and is not embedded: this
function returns the matrix itself, the third output of the source when
return_matrix is true. An invalid dynamo-type tag makes the perturbation
operator raise on its first application, surfaced here as the error
branch. -/
noncomputable def Galerkin_W (g : SphGrid) (symmetric : Bool)
    (dynamo_type : String) (n_free_decay_modes : ℕ)
    (function_V : Arr → Arr → Arr → Arr × Arr × Arr)
    (function_alpha : Arr → Arr → Arr → Arr) (Ra Ro : ℝ) :
    Except String (ℕ → ℕ → ℝ) :=
  if dynamo_type = "alpha-omega" ∨ dynamo_type = "alpha2-omega" then
    Except.ok (fun i j =>
      if i < n_free_decay_modes ∧ j < n_free_decay_modes then
        if i = j then gamma_mode symmetric i
        else couplingIntegral g symmetric dynamo_type function_V
          function_alpha Ra Ro i j
      else 0)
  else Except.error ("Invalid option: dynamo_type=" ++ dynamo_type)

/-- Entry (i, j) of a successfully built coupling matrix; zero when the
build aborted with an error. -/
def WijOf (e : Except String (ℕ → ℕ → ℝ)) (i j : ℕ) : ℝ :=
  match e with
  | Except.ok W => W i j
  | Except.error _ => 0

/-- C1: for every field sample, velocity sample, alpha sample and scalars
Ra and Ro, the perturbation operator under tag alpha-omega returns, in
each component i, Ra*(curl(alpha B)_i - curl(alpha B)_phi) +
Ro*curl(V x B)_i, and under tag alpha2-omega returns
Ra*curl(alpha B)_i + Ro*curl(V x B)_i; the two tags differ in nothing
else: both outputs are built from the same curls of alpha B and V x B. -/
theorem C1_perturbation_operator_tag_formulas (nr nt np : ℕ)
    (r theta phi Br Bt Bp Vr Vt Vp alpha : Arr) (Ra Ro : ℝ) :
    (let curl_aB := curl_spherical nr nt np r theta phi
       (fun q => Br q * alpha q) (fun q => Bt q * alpha q)
       (fun q => Bp q * alpha q)
     let VcrossB := cross Vr Vt Vp Br Bt Bp
     let curl_VcrossB := curl_spherical nr nt np r theta phi
       VcrossB.1 VcrossB.2.1 VcrossB.2.2
     perturbation_operator nr nt np r theta phi Br Bt Bp Vr Vt Vp alpha Ra Ro
         "alpha-omega" =
       Except.ok
         (fun p => Ra * (comp3 curl_aB 0 p - comp3 curl_aB 2 p)
            + Ro * comp3 curl_VcrossB 0 p,
          fun p => Ra * (comp3 curl_aB 1 p - comp3 curl_aB 2 p)
            + Ro * comp3 curl_VcrossB 1 p,
          fun p => Ra * (comp3 curl_aB 2 p - comp3 curl_aB 2 p)
            + Ro * comp3 curl_VcrossB 2 p) ∧
     perturbation_operator nr nt np r theta phi Br Bt Bp Vr Vt Vp alpha Ra Ro
         "alpha2-omega" =
       Except.ok
         (fun p => Ra * comp3 curl_aB 0 p + Ro * comp3 curl_VcrossB 0 p,
          fun p => Ra * comp3 curl_aB 1 p + Ro * comp3 curl_VcrossB 1 p,
          fun p => Ra * comp3 curl_aB 2 p + Ro * comp3 curl_VcrossB 2 p)) :=
  ⟨rfl, rfl⟩

/-- C5: with identical inputs, the alpha2-omega output minus the
alpha-omega output equals Ra times the azimuthal component of
curl(alpha B), in every one of the three components and at every grid
point. -/
theorem C5_alpha2_minus_alphaomega (nr nt np : ℕ)
    (r theta phi Br Bt Bp Vr Vt Vp alpha : Arr) (Ra Ro : ℝ) (i : Fin 3)
    (p : ℕ × ℕ × ℕ) :
    comp3 (getOk (perturbation_operator nr nt np r theta phi Br Bt Bp
        Vr Vt Vp alpha Ra Ro "alpha2-omega")) i.1 p
      - comp3 (getOk (perturbation_operator nr nt np r theta phi Br Bt Bp
        Vr Vt Vp alpha Ra Ro "alpha-omega")) i.1 p
    = Ra * comp3 (curl_spherical nr nt np r theta phi
        (fun q => Br q * alpha q) (fun q => Bt q * alpha q)
        (fun q => Bp q * alpha q)) 2 p := by
  fin_cases i <;> simp [perturbation_operator, getOk, comp3] <;> ring

/-- C8 counterexample: with the invalid tag omega, the configuration
error is not the first thing the operator does: the curl of alpha B is,
so the error is not raised before the numerical work proceeds. -/
theorem C8_counterexample :
    (perturbation_operator_events ("omega")).head? ≠
      some PerturbationEvent.raiseInvalidDynamoType := by decide

/-- C8 amended: for every dynamo-type tag other than alpha-omega and
alpha2-omega the perturbation operator aborts with the AssertionError
message and returns no partial result, but the error fires only inside
the component-combination loop, after curl(alpha B), the cross product
V x B and curl(V x B) have all been computed. -/
theorem C8_invalid_tag_error_after_curls (nr nt np : ℕ)
    (r theta phi Br Bt Bp Vr Vt Vp alpha : Arr) (Ra Ro : ℝ) (tag : String)
    (h1 : tag ≠ "alpha-omega") (h2 : tag ≠ "alpha2-omega") :
    perturbation_operator nr nt np r theta phi Br Bt Bp Vr Vt Vp alpha Ra Ro
        tag = Except.error ("Invalid option: dynamo_type=" ++ tag) ∧
    perturbation_operator_events tag =
      [PerturbationEvent.curlAlphaB, PerturbationEvent.crossVB,
       PerturbationEvent.curlVcrossB,
       PerturbationEvent.raiseInvalidDynamoType] := by
  constructor
  · simp only [perturbation_operator]
    rw [if_neg h1, if_neg h2]
  · simp only [perturbation_operator_events]
    rw [if_neg (by simp [h1, h2])]
    rfl

/-- Witness for C8 at the concrete invalid tag omega on a concrete
grid. -/
theorem C8_witness :
    perturbation_operator 2 2 1 (fun _ => 1) (fun _ => 2) (fun _ => 0)
        (fun _ => 3) (fun _ => 4) (fun _ => 5) (fun _ => 6) (fun _ => 7)
        (fun _ => 8) (fun _ => 9) 1 1 ("omega") =
      Except.error ("Invalid option: dynamo_type=" ++ "omega") ∧
    perturbation_operator_events ("omega") =
      [PerturbationEvent.curlAlphaB, PerturbationEvent.crossVB,
       PerturbationEvent.curlVcrossB,
       PerturbationEvent.raiseInvalidDynamoType] :=
  C8_invalid_tag_error_after_curls 2 2 1 (fun _ => 1) (fun _ => 2)
    (fun _ => 0) (fun _ => 3) (fun _ => 4) (fun _ => 5) (fun _ => 6)
    (fun _ => 7) (fun _ => 8) (fun _ => 9) 1 1 ("omega") (by decide)
    (by decide)

/-- C2: for every grid, mode family, valid dynamo-type tag, mode count
and dynamo numbers Ra and Ro, the diagonal entry W[i, i] of the coupling
matrix equals the supplied analytic decay eigenvalue gamma_i of mode i;
it is never the coupling integral. -/
theorem C2_diagonal_is_gamma (g : SphGrid) (symmetric : Bool)
    (dynamo_type : String) (n : ℕ)
    (function_V : Arr → Arr → Arr → Arr × Arr × Arr)
    (function_alpha : Arr → Arr → Arr → Arr) (Ra Ro : ℝ)
    (htag : dynamo_type = "alpha-omega" ∨ dynamo_type = "alpha2-omega")
    (i : ℕ) (hi : i < n) :
    WijOf (Galerkin_W g symmetric dynamo_type n function_V function_alpha
        Ra Ro) i i = gamma_mode symmetric i := by
  simp only [Galerkin_W]
  rw [if_pos htag]
  simp [WijOf, hi]

/-- Witness for C2 on a concrete grid with the alpha-omega tag. -/
theorem C2_witness :
    WijOf (Galerkin_W ⟨2, 2, 1, fun _ => 1, fun _ => 2, fun _ => 0, 1, 1, 0⟩
        false ("alpha-omega") 4 (fun a b c => (a, b, c)) (fun a _ _ => a)
        1 1) 0 0 = gamma_mode false 0 :=
  C2_diagonal_is_gamma _ false _ 4 _ _ 1 1 (Or.inl rfl) 0 (by norm_num)

/-- With both dynamo numbers zero the coupling integrand vanishes at every
grid point, for either valid dynamo-type tag. -/
theorem couplingIntegrand_zero_of_Ra0_Ro0 (g : SphGrid) (symmetric : Bool)
    (dynamo_type : String)
    (function_V : Arr → Arr → Arr → Arr × Arr × Arr)
    (function_alpha : Arr → Arr → Arr → Arr) (i j : ℕ)
    (htag : dynamo_type = "alpha-omega" ∨ dynamo_type = "alpha2-omega")
    (p : ℕ × ℕ × ℕ) :
    couplingIntegrand g symmetric dynamo_type function_V function_alpha
      0 0 i j p = 0 := by
  rcases htag with h | h <;> subst h <;>
    simp [couplingIntegrand, perturbation_operator, getOk, comp3]

/-- C6: if both dynamo numbers are zero then every off-diagonal entry of
the coupling matrix is exactly zero (hence zero within any numerical
tolerance), for every grid, mode family and valid dynamo-type tag. -/
theorem C6_offdiagonal_zero_when_Ra_Ro_zero (g : SphGrid) (symmetric : Bool)
    (dynamo_type : String) (n : ℕ)
    (function_V : Arr → Arr → Arr → Arr × Arr × Arr)
    (function_alpha : Arr → Arr → Arr → Arr)
    (htag : dynamo_type = "alpha-omega" ∨ dynamo_type = "alpha2-omega")
    (i j : ℕ) (hij : i ≠ j) :
    WijOf (Galerkin_W g symmetric dynamo_type n function_V function_alpha
        0 0) i j = 0 := by
  have h0 : ∀ q : ℕ × ℕ × ℕ, couplingIntegrand g symmetric dynamo_type
      function_V function_alpha 0 0 i j q = 0 :=
    couplingIntegrand_zero_of_Ra0_Ro0 g symmetric dynamo_type function_V
      function_alpha i j htag
  simp only [Galerkin_W]
  rw [if_pos htag]
  simp only [WijOf]
  by_cases hin : i < n ∧ j < n
  · rw [if_pos hin, if_neg hij]
    simp only [couplingIntegral]
    have hphi : ∀ a b : ℕ,
        (if g.dphi ≠ 0 then
          simpsList g.dphi (List.ofFn fun l : Fin g.np =>
            couplingIntegrand g symmetric dynamo_type function_V
              function_alpha 0 0 i j (a, b, l.1))
        else couplingIntegrand g symmetric dynamo_type function_V
          function_alpha 0 0 i j (a, b, 0) * 2.0 * π) = 0 := by
      intro a b
      by_cases hd : g.dphi ≠ 0
      · rw [if_pos hd]
        have he : (fun l : Fin g.np => couplingIntegrand g symmetric
            dynamo_type function_V function_alpha 0 0 i j (a, b, l.1)) =
            fun _ => 0 := funext fun l => h0 _
        rw [he, List.ofFn_const]
        exact simpsList_replicate_zero _ _
      · rw [if_neg hd, h0, zero_mul, zero_mul]
    have hth : (fun a : Fin g.nr => simpsList g.dtheta
        (List.ofFn fun b : Fin g.nt =>
          if g.dphi ≠ 0 then
            simpsList g.dphi (List.ofFn fun l : Fin g.np =>
              couplingIntegrand g symmetric dynamo_type function_V
                function_alpha 0 0 i j (a.1, b.1, l.1))
          else couplingIntegrand g symmetric dynamo_type function_V
            function_alpha 0 0 i j (a.1, b.1, 0) * 2.0 * π)) =
        fun _ => 0 := by
      funext a
      have he : (fun b : Fin g.nt =>
          if g.dphi ≠ 0 then
            simpsList g.dphi (List.ofFn fun l : Fin g.np =>
              couplingIntegrand g symmetric dynamo_type function_V
                function_alpha 0 0 i j (a.1, b.1, l.1))
          else couplingIntegrand g symmetric dynamo_type function_V
            function_alpha 0 0 i j (a.1, b.1, 0) * 2.0 * π) =
          fun _ => 0 := funext fun b => hphi a.1 b.1
      rw [he, List.ofFn_const]
      exact simpsList_replicate_zero _ _
    rw [hth, List.ofFn_const]
    exact simpsList_replicate_zero _ _
  · rw [if_neg hin]

/-- Witness for C6 on a concrete grid with Ra = Ro = 0. -/
theorem C6_witness :
    WijOf (Galerkin_W ⟨2, 2, 1, fun _ => 1, fun _ => 1, fun _ => 0, 1, 1, 0⟩
        false ("alpha-omega") 4 (fun a b c => (a, b, c)) (fun a _ _ => a)
        0 0) 0 1 = 0 :=
  C6_offdiagonal_zero_when_Ra_Ro_zero _ false _ 4 _ _ (Or.inl rfl) 0 1
    (by norm_num)

/-- C7: in each off-diagonal coupling entry, a zero-width phi axis
(dphi = 0) makes the phi integration of the coupling integrand collapse
to the phi = 0 slice times 2 pi, and a nonzero dphi makes it a Simpson
quadrature over the phi axis; either way the result is then integrated by
Simpson quadrature over theta and then over r. -/
theorem C7_phi_axis_handling (g : SphGrid) (symmetric : Bool)
    (dynamo_type : String) (n : ℕ)
    (function_V : Arr → Arr → Arr → Arr × Arr × Arr)
    (function_alpha : Arr → Arr → Arr → Arr) (Ra Ro : ℝ)
    (htag : dynamo_type = "alpha-omega" ∨ dynamo_type = "alpha2-omega")
    (i j : ℕ) (hi : i < n) (hj : j < n) (hij : i ≠ j) :
    (g.dphi = 0 →
      WijOf (Galerkin_W g symmetric dynamo_type n function_V function_alpha
          Ra Ro) i j =
        simpsList g.dr (List.ofFn fun a : Fin g.nr =>
          simpsList g.dtheta (List.ofFn fun b : Fin g.nt =>
            couplingIntegrand g symmetric dynamo_type function_V
              function_alpha Ra Ro i j (a.1, b.1, 0) * 2.0 * π))) ∧
    (g.dphi ≠ 0 →
      WijOf (Galerkin_W g symmetric dynamo_type n function_V function_alpha
          Ra Ro) i j =
        simpsList g.dr (List.ofFn fun a : Fin g.nr =>
          simpsList g.dtheta (List.ofFn fun b : Fin g.nt =>
            simpsList g.dphi (List.ofFn fun l : Fin g.np =>
              couplingIntegrand g symmetric dynamo_type function_V
                function_alpha Ra Ro i j (a.1, b.1, l.1))))) := by
  have hin : i < n ∧ j < n := ⟨hi, hj⟩
  constructor <;> intro hd <;>
    (simp only [Galerkin_W]
     rw [if_pos htag]
     simp only [WijOf]
     rw [if_pos hin, if_neg hij]
     simp only [couplingIntegral]
     simp [hd])

/-- Witness for C7 on a concrete grid whose phi axis has zero width. -/
theorem C7_witness :
    WijOf (Galerkin_W ⟨2, 2, 1, fun _ => 1, fun _ => 1, fun _ => 0, 1, 1, 0⟩
        false ("alpha-omega") 4 (fun a b c => (a, b, c)) (fun a _ _ => a)
        1 1) 0 1 =
      simpsList (1:ℝ) (List.ofFn fun a : Fin 2 =>
        simpsList (1:ℝ) (List.ofFn fun b : Fin 2 =>
          couplingIntegrand
            ⟨2, 2, 1, fun _ => 1, fun _ => 1, fun _ => 0, 1, 1, 0⟩
            false ("alpha-omega") (fun a b c => (a, b, c)) (fun a _ _ => a)
            1 1 0 1 (a.1, b.1, 0) * 2.0 * π)) :=
  (C7_phi_axis_handling _ false _ 4 _ _ 1 1 (Or.inl rfl) 0 1 (by norm_num)
    (by norm_num) (by norm_num)).1 rfl

/-- A parameter value in the generator parameter dictionaries. -/
inductive PyValue
  | pbool (b : Bool)
  | pnat (n : ℕ)
  | pstr (s : String)
  | pfun (name : String)
  deriving DecidableEq

/-- The builtin parameter defaults of B_generator_halo
(B_generator_halo.py, lines 27-38). -/
def builtin_parameter_defaults : List (String × PyValue) :=
  [("halo_symmetric_field", PyValue.pbool true),
   ("halo_n_free_decay_modes", PyValue.pnat 4),
   ("halo_dynamo_type", PyValue.pstr ("alpha-omega")),
   ("halo_rotation_function", PyValue.pfun ("simple_V")),
   ("halo_alpha_function", PyValue.pfun ("simple_alpha")),
   ("halo_Galerkin_ngrid", PyValue.pnat 250),
   ("halo_growing_mode_only", PyValue.pbool false),
   ("halo_compute_only_one_quadrant", PyValue.pbool true)]

/-- Modelled from the spec: B_generator._parse_parameters (defined in the
base class, which is not in src) merges the builtin defaults with the
caller overrides, the override winning on a repeated key (spec section 9:
parameter defaults merged with overrides); lookups prefer the overrides
list. -/
def parse_parameters (kwargs : List (String × PyValue)) :
    List (String × PyValue) :=
  kwargs ++ builtin_parameter_defaults

/-- The two textual definitions of get_B_field in the class body of
B_generator_halo: the halo one at lines 41-69, which builds the spherical
Galerkin grid and raises NotImplementedError, and the disk-assembly one
at lines 236-272. -/
inductive GetBFieldDef
  | haloGalerkin
  | diskAssembly
  deriving DecidableEq

/-- The class body binds the name get_B_field twice, in source order. -/
def get_B_field_class_defs : List GetBFieldDef :=
  [GetBFieldDef.haloGalerkin, GetBFieldDef.diskAssembly]

/-- Python class-body semantics: a later def of the same name rebinds it,
so the method an instance actually calls is the last definition in the
class body. -/
def effective_get_B_field_def : Option GetBFieldDef :=
  get_B_field_class_defs.getLast?

/-- The observable outcome of a get_B_field call. -/
inductive CallOutcome
  | notImplementedError
  | keyError (key : String)
  | fieldObject
  | attributeError
  deriving DecidableEq

/-- What each textual definition does when executed. The halo definition
(lines 41-69) constructs the spherical Galerkin grid and then raises
NotImplementedError, returning nothing. The disk-assembly definition
(lines 236-272) parses the parameters and immediately indexes
disk_component_normalization, raising KeyError when the key is absent, as
it is from the builtin halo defaults; when present it goes on to assemble
and return a B_field object (the assembly itself is external plumbing and
is not modelled further). -/
def run_get_B_field_def : GetBFieldDef → List (String × PyValue) → CallOutcome
  | GetBFieldDef.haloGalerkin, _ => CallOutcome.notImplementedError
  | GetBFieldDef.diskAssembly, kwargs =>
      match (parse_parameters kwargs).lookup ("disk_component_normalization") with
      | none => CallOutcome.keyError ("disk_component_normalization")
      | some _ => CallOutcome.fieldObject

/-- Calling get_B_field on a B_generator_halo instance runs the effective
(last-bound) definition of the name. -/
def call_get_B_field (kwargs : List (String × PyValue)) : CallOutcome :=
  match effective_get_B_field_def with
  | some d => run_get_B_field_def d kwargs
  | none => CallOutcome.attributeError

/-- C9: calling get_B_field on a B_generator_halo instance does not raise
NotImplementedError: the later disk-assembly definition of get_B_field
shadows the halo definition that would raise it, so with the default
parameters the call instead fails looking up
disk_component_normalization. The halo definition, with its Galerkin grid
construction followed by the NotImplementedError, is dead code. -/
theorem C9_get_B_field_shadowed :
    effective_get_B_field_def = some GetBFieldDef.diskAssembly ∧
    call_get_B_field [] = CallOutcome.keyError ("disk_component_normalization") ∧
    call_get_B_field [] ≠ CallOutcome.notImplementedError ∧
    run_get_B_field_def GetBFieldDef.haloGalerkin [] =
      CallOutcome.notImplementedError := by
  refine ⟨rfl, rfl, ?_, rfl⟩
  decide

set_option maxHeartbeats 1000000 in
/-- Certified enclosures for sin and cos at 5.763, obtained from the
six-digit bounds on pi, periodicity, and the cubic and quadratic Taylor
bounds on sin and cos over the unit interval. -/
theorem sin_cos_5763_bounds :
    ((-0.5006:ℝ) ≤ Real.sin 5.763 ∧ Real.sin 5.763 ≤ -0.4928) ∧
    ((0.8608:ℝ) ≤ Real.cos 5.763 ∧ Real.cos 5.763 ≤ 0.8686) := by
  have hpl : π < 3.141593 := Real.pi_lt_d6
  have hpg : (3.141592:ℝ) < π := Real.pi_gt_d6
  obtain ⟨x, hxdef⟩ : ∃ y : ℝ, y = 5.763 - 2*π := ⟨_, rfl⟩
  have hsx : Real.sin 5.763 = Real.sin x := by
    rw [hxdef, Real.sin_sub_two_pi]
  have hcx : Real.cos 5.763 = Real.cos x := by
    rw [hxdef, Real.cos_sub_two_pi]
  have hx1 : (-0.520186:ℝ) < x := by rw [hxdef]; linarith
  have hx2 : x < -0.520184 := by rw [hxdef]; linarith
  have hxneg : x < 0 := by linarith
  have habs : |x| = -x := abs_of_neg hxneg
  have hxabs : |x| ≤ 1 := by rw [habs]; linarith
  have hsb := Real.sin_bound hxabs
  have hcb := Real.cos_bound hxabs
  rw [habs] at hsb hcb
  rw [abs_le] at hsb hcb
  have hu3lo : (0.520184:ℝ)^3 ≤ (-x)^3 :=
    pow_le_pow_left₀ (by norm_num) (by linarith) 3
  have hu3hi : (-x)^3 ≤ (0.520186:ℝ)^3 :=
    pow_le_pow_left₀ (by linarith) (by linarith) 3
  have hu4hi : (-x)^4 ≤ (0.520186:ℝ)^4 :=
    pow_le_pow_left₀ (by linarith) (by linarith) 4
  have hxsq_hi : x^2 ≤ (0.520186:ℝ)^2 := by nlinarith [hx1, hx2]
  have hxsq_lo : (0.520184:ℝ)^2 ≤ x^2 := by nlinarith [hx1, hx2]
  norm_num at hu3lo hu3hi hu4hi hxsq_hi hxsq_lo
  constructor
  · rw [hsx]
    constructor
    · linarith [hsb.1, hu3lo, hu4hi]
    · linarith [hsb.2, hu3hi, hu4hi]
  · rw [hcx]
    constructor
    · linarith [hcb.1, hxsq_hi, hu4hi]
    · linarith [hcb.2, hxsq_lo, hu4hi]

/-- The interior branch of the a_2 polar component at the boundary point
r = 1, theta = pi/2, with the default constants: the first two terms of X
cancel there and the value reduces to a closed form in sin 5.763 and
cos 5.763. -/
theorem B_a_2_int_value :
    B_a_2_theta_int 1 (π/2) 0.250 5.763 =
      0.25 * (Real.sqrt (2/π) *
        (-45*Real.sin 5.763/5.763^3 + 45*Real.cos 5.763/5.763^2
          + 21*Real.sin 5.763/5.763 - 5.763*Real.sin 5.763
          - 6*Real.sin 5.763) / Real.sqrt 5.763) := by
  have h32 : (5.763:ℝ) ^ ((3:ℝ)/2) = 5.763 * Real.sqrt 5.763 := by
    rw [show ((3:ℝ)/2) = (1:ℝ) + 1/2 by norm_num,
      Real.rpow_add (by norm_num : (0:ℝ) < 5.763), Real.rpow_one,
      ← Real.sqrt_eq_rpow]
  unfold B_a_2_theta_int
  simp only [mul_one, one_mul, div_one, Real.sqrt_one, Real.sin_pi_div_two,
    Real.cos_pi_div_two]
  rw [h32, Real.sqrt_mul (by positivity : (0:ℝ) ≤ 2*π) 5.763]
  ring

/-- The exterior branch of the a_2 polar component at the boundary point
r = 1, theta = pi/2, with the default constants, reduced to a closed form
in sin 5.763 and cos 5.763 through the half-integer Bessel closed
form. -/
theorem B_a_2_ext_value :
    B_a_2_theta_ext 1 (π/2) 0.250 5.763 =
      -(0.75 * (Real.sqrt (2/(π*5.763)) *
        ((15/5.763^3 - 6/5.763)*Real.sin 5.763
          - (15/5.763^2 - 1)*Real.cos 5.763))) := by
  unfold B_a_2_theta_ext jv
  rw [if_neg (by norm_num), if_neg (by norm_num), if_pos (by norm_num)]
  simp only [Real.one_rpow, Real.sin_pi_div_two, Real.cos_pi_div_two,
    div_one, mul_one]
  ring

set_option maxHeartbeats 1000000 in
/-- C4 fails on the code: at r = 1, theta = pi/2, the interior and
exterior formulas of the polar component of mode a_2 (default constants)
differ by far more than one part in a million of the exterior value; the
interior value is above 0.43 while the exterior value is below -0.23, a
relative mismatch of order one, so the mode is grossly discontinuous at
the matching boundary. -/
theorem C4_code_bug_a2_boundary_mismatch :
    ¬ (|B_a_2_theta_int 1 (π/2) 0.250 5.763 -
          B_a_2_theta_ext 1 (π/2) 0.250 5.763| ≤
        1/1000000 * |B_a_2_theta_ext 1 (π/2) 0.250 5.763|) := by
  obtain ⟨⟨hs1, hs2⟩, hc1, hc2⟩ := sin_cos_5763_bounds
  have hpl : π < 3.141593 := Real.pi_lt_d6
  have hpg : (3.141592:ℝ) < π := Real.pi_gt_d6
  have hπ : (0:ℝ) < π := Real.pi_pos
  rw [B_a_2_int_value, B_a_2_ext_value]
  obtain ⟨B, hB⟩ : ∃ t : ℝ, t =
      -45*Real.sin 5.763/5.763^3 + 45*Real.cos 5.763/5.763^2
        + 21*Real.sin 5.763/5.763 - 5.763*Real.sin 5.763
        - 6*Real.sin 5.763 := ⟨_, rfl⟩
  obtain ⟨I, hI⟩ : ∃ t : ℝ, t =
      (15/5.763^3 - 6/5.763)*Real.sin 5.763
        - (15/5.763^2 - 1)*Real.cos 5.763 := ⟨_, rfl⟩
  obtain ⟨S1, hS1⟩ : ∃ t : ℝ, t = Real.sqrt (2/π) := ⟨_, rfl⟩
  obtain ⟨S2, hS2⟩ : ∃ t : ℝ, t = Real.sqrt 5.763 := ⟨_, rfl⟩
  obtain ⟨S3, hS3⟩ : ∃ t : ℝ, t = Real.sqrt (2/(π*5.763)) := ⟨_, rfl⟩
  rw [← hB, ← hI, ← hS1, ← hS2, ← hS3]
  have hBlo : (5.28:ℝ) ≤ B := by
    rw [hB]; norm_num; linarith
  have hIlo : (0.946:ℝ) ≤ I := by
    rw [hI]; norm_num; linarith
  have hIhi : I ≤ 0.959 := by
    rw [hI]; norm_num; linarith
  have hS1lo : (0.797:ℝ) ≤ S1 := by
    rw [hS1, Real.le_sqrt (by norm_num) (by positivity), le_div_iff₀ hπ]
    nlinarith
  have hS1nn : (0:ℝ) ≤ S1 := by rw [hS1]; exact Real.sqrt_nonneg _
  have hS2hi : S2 ≤ 2.401 := by
    rw [hS2, Real.sqrt_le_left (by norm_num)]
    norm_num
  have hS2pos : (0:ℝ) < S2 := by
    rw [hS2]; exact Real.sqrt_pos.mpr (by norm_num)
  have hS3lo : (0.3323:ℝ) ≤ S3 := by
    rw [hS3, Real.le_sqrt (by norm_num) (by positivity),
      le_div_iff₀ (by positivity)]
    nlinarith
  have hS3hi : S3 ≤ 0.3324 := by
    rw [hS3, Real.sqrt_le_left (by norm_num), div_le_iff₀ (by positivity)]
    nlinarith
  have hb1 : (0.31:ℝ) ≤ S3*I := by
    have := mul_le_mul hS3lo hIlo (by norm_num) (by linarith)
    linarith
  have hb2 : S3*I ≤ 0.32 := by
    have := mul_le_mul hS3hi hIhi (by linarith) (by norm_num)
    linarith
  have ha : (0.438:ℝ) ≤ 0.25 * (S1 * B / S2) := by
    have hp : (0.797:ℝ)*5.28 ≤ S1*B := mul_le_mul hS1lo hBlo (by norm_num) hS1nn
    have h1 : (1.752:ℝ) ≤ S1 * B / S2 := by
      rw [le_div_iff₀ hS2pos]
      linarith [hp, hS2hi]
    linarith
  rw [not_le]
  have h1 : |(-(0.75*(S3*I)))| = 0.75*(S3*I) := by
    rw [abs_neg]
    exact abs_of_pos (by linarith)
  have h2 : |0.25 * (S1 * B / S2) - -(0.75*(S3*I))| =
      0.25 * (S1 * B / S2) + 0.75*(S3*I) := by
    rw [sub_neg_eq_add]
    exact abs_of_pos (by linarith)
  rw [h1, h2]
  linarith
